import Mathlib

/-!
Verification of `src/tema_2/sistema_inventario.py`, a console inventory system
with a `Producto` class (validated name/price/quantity) and an `Inventario`
class (ordered, name-unique collection with add / find / list / total value).

Modelling conventions for the shallow embedding:
* Python runtime values that flow through the dynamically-typed validation
  code are modelled by the inductive type `PyVal` (strings, ints, floats,
  bools, `None`, `Producto` instances, and a token for any other object).
  Python's `bool` is a subclass of `int`, which the `isinstance` based
  checks observe; the model reflects that in `PyVal.isNumeric`/`PyVal.isInt`.
* Python floats are modelled as exact rationals (ℚ); no claim under
  consideration depends on binary floating-point rounding.
* `raise ValueError(msg)` / `raise TypeError(msg)` become an `Except`/
  `Option` error value of type `PyError` carrying the message, so that the
  error *kind* (spec: InvalidArgument/TypeMismatch/DuplicateKey) stays
  distinguishable.
* Mutating methods (`actualizar_precio`, `actualizar_cantidad`,
  `agregar_producto`) are embedded by explicit state passing: they return
  the new state paired with `Option PyError`; since the Python methods
  raise before any assignment, the returned state on error is the old one.
* `str.strip` is modelled by `pyStrip` over the string's character list and
  `str.lower` by `pyLower` (ASCII case folding, which covers the character
  sets exercised here).
-/

namespace SistemaInventario

/-- A `Producto` instance after successful `__init__`: the stored attributes
`nombre`, `precio` (Python float, modelled as ℚ), `cantidad`. -/
structure Producto where
  nombre : String
  precio : ℚ
  cantidad : Int
deriving DecidableEq

/-- A dynamically-typed Python value as it may reach the validation code. -/
inductive PyVal where
  | str (s : String)
  | int (n : Int)
  | float (x : ℚ)
  | bool (b : Bool)
  | none
  | prod (p : Producto)
  | other
deriving DecidableEq

/-- A raised Python exception: the constructor is the exception class and the
argument is the message. -/
inductive PyError where
  | valueError (msg : String)
  | typeError (msg : String)
deriving DecidableEq

/-- Models `isinstance(v, str)`. -/
def PyVal.isStr : PyVal → Bool
  | .str _ => true
  | _ => false

/-- Models `isinstance(v, (int, float))`; `True`/`False` are instances of
`int` in Python, hence count as numeric. -/
def PyVal.isNumeric : PyVal → Bool
  | .int _ => true
  | .float _ => true
  | .bool _ => true
  | _ => false

/-- Models `isinstance(v, int)`; bools are ints in Python. -/
def PyVal.isInt : PyVal → Bool
  | .int _ => true
  | .bool _ => true
  | _ => false

/-- Models `float(v)` on a numeric value (`True` ↦ 1.0, `False` ↦ 0.0);
never reached on non-numeric values in the embedded code. -/
def PyVal.toFloat : PyVal → ℚ
  | .int n => (n : ℚ)
  | .float x => x
  | .bool b => if b then 1 else 0
  | _ => 0

/-- Integer value of an `isinstance(·, int)` value (`True` ↦ 1, `False` ↦ 0);
never reached on other values in the embedded code. -/
def PyVal.toInt : PyVal → Int
  | .int n => n
  | .bool b => if b then 1 else 0
  | _ => 0

/-- Models Python `str.strip()`: drop whitespace characters from both ends. -/
def pyStrip (s : String) : String :=
  ⟨((s.data.dropWhile Char.isWhitespace).reverse.dropWhile Char.isWhitespace).reverse⟩

/-- Models Python `str.lower()` (ASCII case folding), character by
character. -/
def pyLower (s : String) : String :=
  ⟨s.data.map Char.toLower⟩

/-- Models line 33, `nombre.strip() if isinstance(nombre, str) else ""`. -/
def nombreLimpio (nombre : PyVal) : String :=
  match nombre with
  | .str s => pyStrip s
  | _ => ""

/-- Models `Producto.__init__(nombre, precio, cantidad)`: the guard sequence of
lines 33–49 followed by the attribute assignments of lines 51–53. -/
def Producto.init (nombre precio cantidad : PyVal) : Except PyError Producto :=
  if nombreLimpio nombre = "" then
    .error (.valueError "El nombre no puede estar vacío.")
  else if ¬ precio.isNumeric then
    .error (.typeError "El precio debe ser numérico.")
  else
    let precio_float := precio.toFloat
    if precio_float < 0 then
      .error (.valueError "El precio no puede ser negativo.")
    else if ¬ cantidad.isInt then
      .error (.typeError "La cantidad debe ser un entero.")
    else if cantidad.toInt < 0 then
      .error (.valueError "La cantidad no puede ser negativa.")
    else
      .ok ⟨nombreLimpio nombre, precio_float, cantidad.toInt⟩

/-- Models `Producto.actualizar_precio`: returns the post-state and the raised
exception, if any (the method raises before assigning, so on error the
pre-state is returned unchanged). -/
def Producto.actualizar_precio (self : Producto) (nuevo_precio : PyVal) :
    Producto × Option PyError :=
  if ¬ nuevo_precio.isNumeric then
    (self, some (.typeError "El precio debe ser numérico."))
  else
    let nuevo_precio_float := nuevo_precio.toFloat
    if nuevo_precio_float < 0 then
      (self, some (.valueError "El precio no puede ser negativo."))
    else
      ({ self with precio := nuevo_precio_float }, Option.none)

/-- Models `Producto.actualizar_cantidad`, with the same state-passing
convention as `Producto.actualizar_precio`. -/
def Producto.actualizar_cantidad (self : Producto) (nueva_cantidad : PyVal) :
    Producto × Option PyError :=
  if ¬ nueva_cantidad.isInt then
    (self, some (.typeError "La cantidad debe ser un entero."))
  else if nueva_cantidad.toInt < 0 then
    (self, some (.valueError "La cantidad no puede ser negativa."))
  else
    ({ self with cantidad := nueva_cantidad.toInt }, Option.none)

/-- Models `Producto.calcular_valor_total`: `self.precio * self.cantidad`. -/
def Producto.calcular_valor_total (self : Producto) : ℚ :=
  self.precio * (self.cantidad : ℚ)

/-- The `Inventario` class: its single attribute `productos`, an ordered
list of products. -/
structure Inventario where
  productos : List Producto
deriving DecidableEq

/-- Models `Inventario.__init__`: an empty inventory. -/
def Inventario.init : Inventario :=
  ⟨[]⟩

/-- Models `Inventario.agregar_producto`: `TypeError` for a non-`Producto`
argument, `ValueError` when a case-insensitive name match already exists,
otherwise append at the end.  State-passing as for the mutators. -/
def Inventario.agregar_producto (self : Inventario) (producto : PyVal) :
    Inventario × Option PyError :=
  match producto with
  | .prod p =>
    if self.productos.any (fun q => pyLower q.nombre == pyLower p.nombre) then
      (self, some (.valueError "Ya existe un producto con ese nombre."))
    else
      (⟨self.productos ++ [p]⟩, Option.none)
  | _ => (self, some (.typeError "Solo se pueden agregar objetos de tipo Producto."))

/-- Models `Inventario.buscar_producto`: `ValueError` on an empty trimmed
query, otherwise the first product (in insertion order) whose lowered name
equals the lowered trimmed query, or `None`. -/
def Inventario.buscar_producto (self : Inventario) (nombre : String) :
    Except PyError (Option Producto) :=
  let nombre_limpio := pyStrip nombre
  if nombre_limpio = "" then
    .error (.valueError "El nombre a buscar no puede estar vacío.")
  else
    .ok (self.productos.find? (fun p => pyLower p.nombre == pyLower nombre_limpio))

/-- Models `Inventario.calcular_valor_inventario`: Python's `sum` over the
generator, i.e. a left fold starting from `0`. -/
def Inventario.calcular_valor_inventario (self : Inventario) : ℚ :=
  self.productos.foldl (fun acc p => acc + p.calcular_valor_total) 0

/-- Models the 2-decimal rendering `{x:.2f}` used by `Producto.__str__`
(rounding to hundredths). -/
def formatFix2 (q : ℚ) : String :=
  let cents : Int := round (q * 100)
  let sign := if cents < 0 then "-" else ""
  let a := cents.natAbs
  let frac := a % 100
  sign ++ toString (a / 100) ++ "." ++ (if frac < 10 then "0" else "") ++ toString frac

/-- Models `Producto.__str__`. -/
def Producto.renderStr (self : Producto) : String :=
  "Producto: " ++ self.nombre ++ " | Precio: $" ++ formatFix2 self.precio ++
    " | Cantidad: " ++ toString self.cantidad

/-- Models `Inventario.listar_productos` as the sequence of lines it prints:
the empty-inventory message, or a header, one numbered line per product in
list order, and a blank trailer.  The method only reads `self.productos`. -/
def Inventario.listar_productos (self : Inventario) : List String :=
  if self.productos.isEmpty then
    ["No hay productos en el inventario.\n"]
  else
    "\n--- Productos en el inventario ---" ::
      (self.productos.enum.map
        (fun ip => toString (ip.1 + 1) ++ ". " ++ ip.2.renderStr) ++ [""])

/-! ### Helper lemmas about the embedded operations -/

/-- Restates `pyStrip` through `List.rdropWhile` (definitional). -/
theorem pyStrip_eq (s : String) :
    pyStrip s = ⟨(s.data.dropWhile Char.isWhitespace).rdropWhile Char.isWhitespace⟩ :=
  rfl

/-- Head element surviving `dropWhile` fails the predicate. -/
theorem dropWhile_cons_head_false {α : Type} {p : α → Bool} :
    ∀ {l t : List α} {a : α}, l.dropWhile p = a :: t → p a = false := by
  intro l
  induction l with
  | nil => intro t a h; simp [List.dropWhile] at h
  | cons x xs ih =>
    intro t a h
    rw [List.dropWhile_cons] at h
    by_cases hx : p x
    · rw [if_pos hx] at h
      exact ih h
    · rw [if_neg hx] at h
      cases h
      simpa using hx

/-- Stripping is idempotent: a second `strip` changes nothing. -/
theorem pyStrip_idem (s : String) : pyStrip (pyStrip s) = pyStrip s := by
  have key : ∀ l : List Char,
      ((l.dropWhile Char.isWhitespace).rdropWhile Char.isWhitespace).dropWhile
          Char.isWhitespace
        = (l.dropWhile Char.isWhitespace).rdropWhile Char.isWhitespace := by
    intro l
    obtain ⟨t, ht⟩ :=
      List.rdropWhile_prefix Char.isWhitespace (l.dropWhile Char.isWhitespace)
    cases hm : (l.dropWhile Char.isWhitespace).rdropWhile Char.isWhitespace with
    | nil => simp
    | cons a t' =>
      have hA : l.dropWhile Char.isWhitespace = a :: (t' ++ t) := by
        rw [← ht, hm]
        simp
      have ha : Char.isWhitespace a = false := dropWhile_cons_head_false hA
      rw [List.dropWhile_cons, ha]
      simp
  show String.mk
      ((((s.data.dropWhile Char.isWhitespace).rdropWhile Char.isWhitespace).dropWhile
        Char.isWhitespace).rdropWhile Char.isWhitespace)
      = String.mk ((s.data.dropWhile Char.isWhitespace).rdropWhile Char.isWhitespace)
  rw [key s.data]
  exact congrArg String.mk (List.rdropWhile_idempotent Char.isWhitespace _)

/-- Inversion for a successful `Producto.__init__`: exactly which checks were
passed and what got stored. -/
theorem Producto.init_ok (name precio cantidad : PyVal) (p : Producto)
    (h : Producto.init name precio cantidad = .ok p) :
    (∃ s, name = .str s ∧ p.nombre = pyStrip s) ∧ p.nombre ≠ "" ∧
    precio.isNumeric = true ∧ p.precio = precio.toFloat ∧ 0 ≤ p.precio ∧
    cantidad.isInt = true ∧ p.cantidad = cantidad.toInt ∧ 0 ≤ p.cantidad := by
  unfold Producto.init at h
  by_cases h1 : nombreLimpio name = ""
  · rw [if_pos h1] at h
    simp at h
  · rw [if_neg h1] at h
    by_cases h2 : precio.isNumeric
    · rw [if_neg (by simp [h2])] at h
      by_cases h3 : precio.toFloat < 0
      · rw [if_pos h3] at h
        simp at h
      · rw [if_neg h3] at h
        by_cases h4 : cantidad.isInt
        · rw [if_neg (by simp [h4])] at h
          by_cases h5 : cantidad.toInt < 0
          · rw [if_pos h5] at h
            simp at h
          · rw [if_neg h5] at h
            obtain ⟨s, hs⟩ : ∃ s, name = .str s := by
              cases name with
              | str s => exact ⟨s, rfl⟩
              | int _ => simp [nombreLimpio] at h1
              | float _ => simp [nombreLimpio] at h1
              | bool _ => simp [nombreLimpio] at h1
              | none => simp [nombreLimpio] at h1
              | prod _ => simp [nombreLimpio] at h1
              | other => simp [nombreLimpio] at h1
            cases h
            refine ⟨⟨s, hs, by simp [hs, nombreLimpio]⟩, ?_, h2, rfl, not_lt.mp h3,
              h4, rfl, not_lt.mp h5⟩
            simpa [hs, nombreLimpio] using h1
        · rw [if_pos (by simp [h4])] at h
          simp at h
    · rw [if_pos (by simp [h2])] at h
      simp at h

/-- Inversion for a successful `actualizar_precio`. -/
theorem Producto.actualizar_precio_ok (p p' : Producto) (v : PyVal)
    (h : p.actualizar_precio v = (p', Option.none)) :
    v.isNumeric = true ∧ 0 ≤ v.toFloat ∧ p' = { p with precio := v.toFloat } := by
  unfold Producto.actualizar_precio at h
  by_cases h1 : v.isNumeric
  · rw [if_neg (by simp [h1])] at h
    by_cases h2 : v.toFloat < 0
    · rw [if_pos h2] at h
      simp at h
    · rw [if_neg h2] at h
      cases h
      exact ⟨h1, not_lt.mp h2, rfl⟩
  · rw [if_pos (by simp [h1])] at h
    simp at h

/-- Inversion for a successful `actualizar_cantidad`. -/
theorem Producto.actualizar_cantidad_ok (p p' : Producto) (v : PyVal)
    (h : p.actualizar_cantidad v = (p', Option.none)) :
    v.isInt = true ∧ 0 ≤ v.toInt ∧ p' = { p with cantidad := v.toInt } := by
  unfold Producto.actualizar_cantidad at h
  by_cases h1 : v.isInt
  · rw [if_neg (by simp [h1])] at h
    by_cases h2 : v.toInt < 0
    · rw [if_pos h2] at h
      simp at h
    · rw [if_neg h2] at h
      cases h
      exact ⟨h1, not_lt.mp h2, rfl⟩
  · rw [if_pos (by simp [h1])] at h
    simp at h

/-- Inversion for a successful `agregar_producto`: the new product was appended
and no already-present product has the same lowered name. -/
theorem Inventario.agregar_producto_ok (inv inv' : Inventario) (p : Producto)
    (h : inv.agregar_producto (.prod p) = (inv', Option.none)) :
    inv'.productos = inv.productos ++ [p] ∧
    ∀ q ∈ inv.productos, pyLower q.nombre ≠ pyLower p.nombre := by
  simp only [Inventario.agregar_producto] at h
  by_cases hdup : inv.productos.any (fun q => pyLower q.nombre == pyLower p.nombre)
  · rw [if_pos hdup] at h
    simp at h
  · rw [if_neg hdup] at h
    cases h
    refine ⟨rfl, fun q hq hname => hdup ?_⟩
    rw [List.any_eq_true]
    exact ⟨q, hq, by simp [hname]⟩

/-! ### Claim theorems -/

/-- A concrete product used by the witnesses: `Producto("Pen", 2.0, 100)`. -/
def pPen : Producto := ⟨"Pen", 2, 100⟩

/-- C1: for every name whose trimmed text is non-empty, every numeric price
≥ 0 and every integer quantity ≥ 0, `Producto.__init__` succeeds and
`calcular_valor_total()` on the result equals price * quantity. -/
theorem producto_init_total_value (s : String) (precio : PyVal) (n : Int)
    (hs : pyStrip s ≠ "") (hnum : precio.isNumeric = true)
    (hp : 0 ≤ precio.toFloat) (hn : 0 ≤ n) :
    ∃ p, Producto.init (.str s) precio (.int n) = .ok p ∧
      p.calcular_valor_total = precio.toFloat * (n : ℚ) := by
  refine ⟨⟨pyStrip s, precio.toFloat, n⟩, ?_, rfl⟩
  unfold Producto.init
  rw [if_neg (by simpa [nombreLimpio] using hs), if_neg (by simp [hnum]),
    if_neg (not_lt.mpr hp), if_neg (by simp [PyVal.isInt]),
    if_neg (by simpa [PyVal.toInt] using not_lt.mpr hn)]
  rfl

/-- Witness: the construction theorem applied at `("Pen", 2.0, 100)`. -/
theorem producto_init_total_value_witness :
    ∃ p, Producto.init (.str "Pen") (.float 2) (.int 100) = .ok p ∧
      p.calcular_valor_total = (PyVal.float 2).toFloat * ((100 : Int) : ℚ) :=
  producto_init_total_value "Pen" (.float 2) 100 (by decide) (by rfl)
    (by decide) (by decide)

/-- C4: negative numeric prices and negative integer quantities are rejected
with `ValueError` (the InvalidArgument kind) both by construction and by the
corresponding mutator, and a failing mutator leaves the product unchanged. -/
theorem negative_values_rejected (p : Producto) :
    (∀ name precio cantidad, precio.isNumeric = true → precio.toFloat < 0 →
      ∃ msg, Producto.init name precio cantidad = .error (.valueError msg)) ∧
    (∀ name precio (n : Int), precio.isNumeric = true → n < 0 →
      ∃ msg, Producto.init name precio (.int n) = .error (.valueError msg)) ∧
    (∀ precio, precio.isNumeric = true → precio.toFloat < 0 →
      p.actualizar_precio precio =
        (p, some (.valueError "El precio no puede ser negativo."))) ∧
    (∀ n : Int, n < 0 →
      p.actualizar_cantidad (.int n) =
        (p, some (.valueError "La cantidad no puede ser negativa."))) := by
  refine ⟨fun name precio cantidad hnum hlt => ?_, fun name precio n hnum hn => ?_,
    fun precio hnum hlt => ?_, fun n hn => ?_⟩
  · unfold Producto.init
    by_cases h1 : nombreLimpio name = ""
    · rw [if_pos h1]
      exact ⟨_, rfl⟩
    · rw [if_neg h1, if_neg (by simp [hnum]), if_pos hlt]
      exact ⟨_, rfl⟩
  · unfold Producto.init
    by_cases h1 : nombreLimpio name = ""
    · rw [if_pos h1]
      exact ⟨_, rfl⟩
    · rw [if_neg h1, if_neg (by simp [hnum])]
      by_cases h3 : precio.toFloat < 0
      · rw [if_pos h3]
        exact ⟨_, rfl⟩
      · rw [if_neg h3, if_neg (by simp [PyVal.isInt]),
          if_pos (by simpa [PyVal.toInt] using hn)]
        exact ⟨_, rfl⟩
  · unfold Producto.actualizar_precio
    rw [if_neg (by simp [hnum]), if_pos hlt]
  · unfold Producto.actualizar_cantidad
    rw [if_neg (by simp [PyVal.isInt]), if_pos (by simpa [PyVal.toInt] using hn)]

/-- Witness: negative price `-1.0` and negative quantity `-5` rejected, on
construction and on `pPen`, which is returned unchanged. -/
theorem negative_values_rejected_witness :
    (∃ msg, Producto.init (.str "Pen") (.float (-1)) (.int 5) =
      .error (.valueError msg)) ∧
    (∃ msg, Producto.init (.str "Pen") (.float 1) (.int (-5)) =
      .error (.valueError msg)) ∧
    pPen.actualizar_precio (.float (-1)) =
      (pPen, some (.valueError "El precio no puede ser negativo.")) ∧
    pPen.actualizar_cantidad (.int (-5)) =
      (pPen, some (.valueError "La cantidad no puede ser negativa.")) := by
  obtain ⟨h1, h2, h3, h4⟩ := negative_values_rejected pPen
  exact ⟨h1 (.str "Pen") (.float (-1)) (.int 5) (by rfl) (by decide),
    h2 (.str "Pen") (.float 1) (-5) (by rfl) (by decide),
    h3 (.float (-1)) (by rfl) (by decide), h4 (-5) (by decide)⟩

/-- C5: a non-numeric price or a non-integer quantity is rejected with
`TypeError` by construction (given otherwise well-formed earlier arguments)
and by the corresponding mutator, which leaves the product unchanged. -/
theorem type_mismatch_rejected (p : Producto) :
    (∀ s precio cantidad, pyStrip s ≠ "" → precio.isNumeric = false →
      Producto.init (.str s) precio cantidad =
        .error (.typeError "El precio debe ser numérico.")) ∧
    (∀ s precio cantidad, pyStrip s ≠ "" → precio.isNumeric = true →
      0 ≤ precio.toFloat → cantidad.isInt = false →
      Producto.init (.str s) precio cantidad =
        .error (.typeError "La cantidad debe ser un entero.")) ∧
    (∀ precio, precio.isNumeric = false →
      p.actualizar_precio precio =
        (p, some (.typeError "El precio debe ser numérico."))) ∧
    (∀ cantidad, cantidad.isInt = false →
      p.actualizar_cantidad cantidad =
        (p, some (.typeError "La cantidad debe ser un entero."))) := by
  refine ⟨fun s precio cantidad hs hnum => ?_, fun s precio cantidad hs hnum hp hint => ?_,
    fun precio hnum => ?_, fun cantidad hint => ?_⟩
  · unfold Producto.init
    rw [if_neg (by simpa [nombreLimpio] using hs), if_pos (by simp [hnum])]
  · unfold Producto.init
    rw [if_neg (by simpa [nombreLimpio] using hs), if_neg (by simp [hnum]),
      if_neg (not_lt.mpr hp), if_pos (by simp [hint])]
  · unfold Producto.actualizar_precio
    rw [if_pos (by simp [hnum])]
  · unfold Producto.actualizar_cantidad
    rw [if_pos (by simp [hint])]

/-- Witness: a string price, a float quantity and a `None` price rejected
with `TypeError`, leaving `pPen` unchanged. -/
theorem type_mismatch_rejected_witness :
    Producto.init (.str "Pen") (.str "abc") (.int 1) =
      .error (.typeError "El precio debe ser numérico.") ∧
    Producto.init (.str "Pen") (.float 1) (.float 1) =
      .error (.typeError "La cantidad debe ser un entero.") ∧
    pPen.actualizar_precio PyVal.none =
      (pPen, some (.typeError "El precio debe ser numérico.")) ∧
    pPen.actualizar_cantidad (.float 2) =
      (pPen, some (.typeError "La cantidad debe ser un entero.")) := by
  obtain ⟨h1, h2, h3, h4⟩ := type_mismatch_rejected pPen
  exact ⟨h1 "Pen" (.str "abc") (.int 1) (by decide) rfl,
    h2 "Pen" (.float 1) (.float 1) (by decide) rfl (by decide) rfl,
    h3 PyVal.none rfl, h4 (.float 2) rfl⟩

/-- C9: booleans pass the `isinstance` checks for numbers and integers, so
`True`/`False` are accepted as price (stored as `float(b)`, i.e. 1.0/0.0) and
as quantity by construction and by both mutators. -/
theorem bool_accepted_as_number (b : Bool) :
    (∀ s : String, pyStrip s ≠ "" → ∀ n : Int, 0 ≤ n →
      Producto.init (.str s) (.bool b) (.int n) =
        .ok ⟨pyStrip s, if b then 1 else 0, n⟩) ∧
    (∀ s : String, pyStrip s ≠ "" → ∀ x : ℚ, 0 ≤ x →
      Producto.init (.str s) (.float x) (.bool b) =
        .ok ⟨pyStrip s, x, if b then 1 else 0⟩) ∧
    (∀ p : Producto, p.actualizar_precio (.bool b) =
      ({ p with precio := if b then 1 else 0 }, Option.none)) ∧
    (∀ p : Producto, p.actualizar_cantidad (.bool b) =
      ({ p with cantidad := if b then 1 else 0 }, Option.none)) := by
  refine ⟨fun s hs n hn => ?_, fun s hs x hx => ?_, fun p => ?_, fun p => ?_⟩
  · unfold Producto.init
    rw [if_neg (by simpa [nombreLimpio] using hs), if_neg (by simp [PyVal.isNumeric]),
      if_neg (by cases b <;> norm_num [PyVal.toFloat]), if_neg (by simp [PyVal.isInt]),
      if_neg (by simpa [PyVal.toInt] using not_lt.mpr hn)]
    cases b <;> rfl
  · unfold Producto.init
    rw [if_neg (by simpa [nombreLimpio] using hs), if_neg (by simp [PyVal.isNumeric]),
      if_neg (by simpa [PyVal.toFloat] using not_lt.mpr hx), if_neg (by simp [PyVal.isInt]),
      if_neg (by cases b <;> norm_num [PyVal.toInt])]
    cases b <;> rfl
  · unfold Producto.actualizar_precio
    rw [if_neg (by simp [PyVal.isNumeric]), if_neg (by cases b <;> norm_num [PyVal.toFloat])]
    cases b <;> rfl
  · unfold Producto.actualizar_cantidad
    rw [if_neg (by simp [PyVal.isInt]), if_neg (by cases b <;> norm_num [PyVal.toInt])]
    cases b <;> rfl

/-- Witness: `True` accepted as price (stored 1.0) and as quantity (stored 1),
by construction and by the mutators on `pPen`. -/
theorem bool_accepted_as_number_witness :
    Producto.init (.str "Pen") (.bool true) (.int 0) = .ok ⟨pyStrip "Pen", 1, 0⟩ ∧
    Producto.init (.str "Pen") (.float 0) (.bool true) = .ok ⟨pyStrip "Pen", 0, 1⟩ ∧
    pPen.actualizar_precio (.bool true) = ({ pPen with precio := 1 }, Option.none) ∧
    pPen.actualizar_cantidad (.bool true) = ({ pPen with cantidad := 1 }, Option.none) := by
  obtain ⟨h1, h2, h3, h4⟩ := bool_accepted_as_number true
  exact ⟨h1 "Pen" (by decide) 0 (by decide), h2 "Pen" (by decide) 0 (by decide),
    h3 pPen, h4 pPen⟩

/-- C10: a non-string name is treated as if it were empty: construction fails
with the empty-name `ValueError` (InvalidArgument), never with `TypeError`. -/
theorem producto_init_nonstring_name (name precio cantidad : PyVal)
    (h : name.isStr = false) :
    Producto.init name precio cantidad =
      .error (.valueError "El nombre no puede estar vacío.") := by
  have hempty : nombreLimpio name = "" := by
    cases name with
    | str s => simp [PyVal.isStr] at h
    | int _ => rfl
    | float _ => rfl
    | bool _ => rfl
    | none => rfl
    | prod _ => rfl
    | other => rfl
  unfold Producto.init
  rw [if_pos hempty]

/-- Witness: the integer `7` as a name is rejected as an empty name even with
valid price and quantity. -/
theorem producto_init_nonstring_name_witness :
    Producto.init (.int 7) (.float 1) (.int 1) =
      .error (.valueError "El nombre no puede estar vacío.") :=
  producto_init_nonstring_name (.int 7) (.float 1) (.int 1) rfl

/-- C2: `agregar_producto` rejects non-`Producto` arguments with `TypeError`;
rejects a case-insensitive duplicate name with `ValueError` (DuplicateKey),
leaving the contents — hence the size — unchanged; otherwise appends at the
end, keeping every previously contained product in its position. -/
theorem agregar_producto_spec (inv : Inventario) :
    (∀ v : PyVal, (∀ p, v ≠ .prod p) →
      inv.agregar_producto v =
        (inv, some (.typeError "Solo se pueden agregar objetos de tipo Producto."))) ∧
    (∀ p : Producto, (∃ q ∈ inv.productos, pyLower q.nombre = pyLower p.nombre) →
      inv.agregar_producto (.prod p) =
        (inv, some (.valueError "Ya existe un producto con ese nombre."))) ∧
    (∀ p : Producto, (∀ q ∈ inv.productos, pyLower q.nombre ≠ pyLower p.nombre) →
      inv.agregar_producto (.prod p) = (⟨inv.productos ++ [p]⟩, Option.none)) := by
  refine ⟨fun v hv => ?_, fun p hdup => ?_, fun p hnew => ?_⟩
  · cases v with
    | prod p => exact absurd rfl (hv p)
    | str s => rfl
    | int n => rfl
    | float x => rfl
    | bool b => rfl
    | none => rfl
    | other => rfl
  · have hany : inv.productos.any (fun q => pyLower q.nombre == pyLower p.nombre) = true := by
      rw [List.any_eq_true]
      obtain ⟨q, hq, heq⟩ := hdup
      exact ⟨q, hq, by simp [heq]⟩
    simp only [Inventario.agregar_producto]
    rw [if_pos hany]
  · have hany : ¬ inv.productos.any (fun q => pyLower q.nombre == pyLower p.nombre) = true := by
      rw [List.any_eq_true]
      rintro ⟨q, hq, heq⟩
      exact hnew q hq (by simpa using heq)
    simp only [Inventario.agregar_producto]
    rw [if_neg hany]

/-- Witness: on the one-product inventory `["Pen"]`, adding the integer `3`
fails with `TypeError`; adding `"PEN"` fails with `ValueError` leaving the
inventory unchanged; adding `"Ink"` appends. -/
theorem agregar_producto_spec_witness :
    (Inventario.mk [pPen]).agregar_producto (.int 3) =
      (⟨[pPen]⟩, some (.typeError "Solo se pueden agregar objetos de tipo Producto.")) ∧
    (Inventario.mk [pPen]).agregar_producto (.prod ⟨"PEN", 1, 1⟩) =
      (⟨[pPen]⟩, some (.valueError "Ya existe un producto con ese nombre.")) ∧
    (Inventario.mk [pPen]).agregar_producto (.prod ⟨"Ink", 1, 1⟩) =
      (⟨[pPen] ++ [⟨"Ink", 1, 1⟩]⟩, Option.none) := by
  obtain ⟨h1, h2, h3⟩ := agregar_producto_spec ⟨[pPen]⟩
  refine ⟨h1 (.int 3) (fun p h => by cases h), h2 ⟨"PEN", 1, 1⟩ ?_, h3 ⟨"Ink", 1, 1⟩ ?_⟩
  · exact ⟨pPen, by simp, by decide⟩
  · intro q hq
    have hq' : q = pPen := by simpa using hq
    subst hq'
    decide

/-- The element returned by `List.find?` is the first match: it sits at an
index whose strictly earlier positions all fail the predicate. -/
theorem find?_first_index {α : Type} (p : α → Bool) :
    ∀ (l : List α) (a : α), l.find? p = some a →
      ∃ i, ∃ h : i < l.length, l.get ⟨i, h⟩ = a ∧ p a = true ∧
        ∀ j, ∀ hj : j < i, p (l.get ⟨j, Nat.lt_trans hj h⟩) = false := by
  intro l
  induction l with
  | nil => intro a h; simp [List.find?] at h
  | cons x xs ih =>
    intro a h
    by_cases hx : p x
    · rw [List.find?_cons_of_pos _ hx] at h
      cases h
      exact ⟨0, by simp, rfl, hx, fun j hj => absurd hj (Nat.not_lt_zero j)⟩
    · rw [List.find?_cons_of_neg _ hx] at h
      obtain ⟨i, hi, hget, hpa, hfirst⟩ := ih a h
      refine ⟨i + 1, by simpa using Nat.succ_lt_succ hi, by simpa using hget, hpa, ?_⟩
      intro j hj
      cases j with
      | zero => simpa using hx
      | succ j' =>
        have hj' : j' < i := Nat.lt_of_succ_lt_succ hj
        simpa using hfirst j' hj'

/-- C3: `buscar_producto` raises `ValueError` exactly when the trimmed query
is empty; otherwise it returns (without error, not touching the inventory)
the first product in insertion order whose name matches case-insensitively,
or `None` when nothing matches — in particular on an empty inventory. -/
theorem buscar_producto_spec (inv : Inventario) (nombre : String) :
    (pyStrip nombre = "" →
      inv.buscar_producto nombre =
        .error (.valueError "El nombre a buscar no puede estar vacío.")) ∧
    (pyStrip nombre ≠ "" →
      ∃ r, inv.buscar_producto nombre = .ok r ∧
        (r = Option.none ↔
          ∀ p ∈ inv.productos, pyLower p.nombre ≠ pyLower (pyStrip nombre)) ∧
        (∀ p, r = some p →
          pyLower p.nombre = pyLower (pyStrip nombre) ∧
          ∃ i, ∃ h : i < inv.productos.length,
            inv.productos.get ⟨i, h⟩ = p ∧
            ∀ j, ∀ hj : j < i,
              pyLower ((inv.productos.get ⟨j, Nat.lt_trans hj h⟩).nombre) ≠
                pyLower (pyStrip nombre))) := by
  constructor
  · intro he
    unfold Inventario.buscar_producto
    rw [if_pos he]
  · intro hne
    unfold Inventario.buscar_producto
    rw [if_neg hne]
    refine ⟨_, rfl, ?_, ?_⟩
    · constructor
      · intro hnone q hq
        have := List.find?_eq_none.mp hnone q hq
        simpa using this
      · intro hall
        rw [List.find?_eq_none]
        intro q hq
        simpa using hall q hq
    · intro q hq
      obtain ⟨i, hi, hget, hpa, hfirst⟩ := find?_first_index _ _ q hq
      refine ⟨by simpa using hpa, i, hi, hget, fun j hj => ?_⟩
      simpa using hfirst j hj

/-- Witness: searching `" PEN "` in the inventory `["Pen"]` succeeds and the
returned product is the first (index 0) case-insensitive match. -/
theorem buscar_producto_spec_witness :
    ∃ r, (Inventario.mk [pPen]).buscar_producto " PEN " = .ok r ∧
      (r = Option.none ↔
        ∀ p ∈ (Inventario.mk [pPen]).productos,
          pyLower p.nombre ≠ pyLower (pyStrip " PEN ")) ∧
      (∀ p, r = some p →
        pyLower p.nombre = pyLower (pyStrip " PEN ") ∧
        ∃ i, ∃ h : i < (Inventario.mk [pPen]).productos.length,
          (Inventario.mk [pPen]).productos.get ⟨i, h⟩ = p ∧
          ∀ j, ∀ hj : j < i,
            pyLower (((Inventario.mk [pPen]).productos.get
              ⟨j, Nat.lt_trans hj h⟩).nombre) ≠ pyLower (pyStrip " PEN ")) :=
  (buscar_producto_spec ⟨[pPen]⟩ " PEN ").2 (by decide)

/-- Python's `sum` (a left fold from 0) over a mapped list equals the list
sum of the mapped values. -/
theorem foldl_add_map_sum (f : Producto → ℚ) :
    ∀ (l : List Producto) (a : ℚ),
      l.foldl (fun acc p => acc + f p) a = a + (l.map f).sum := by
  intro l
  induction l with
  | nil => intro a; simp
  | cons x xs ih => intro a; simp [ih, add_assoc]

/-- C7: `calcular_valor_inventario` returns the sum of price * quantity over
all contained products, and 0 on the empty inventory.  The embedded function
reads only `self.productos`, so repeated calls with no intervening mutation
agree and the inventory is not modified. -/
theorem calcular_valor_inventario_spec (inv : Inventario) :
    inv.calcular_valor_inventario =
      (inv.productos.map (fun p => p.precio * (p.cantidad : ℚ))).sum ∧
    Inventario.init.calcular_valor_inventario = 0 := by
  constructor
  · unfold Inventario.calcular_valor_inventario
    rw [foldl_add_map_sum Producto.calcular_valor_total inv.productos 0, zero_add]
    rfl
  · rfl

/-- C8: `listar_productos` displays, to its caller via the console, exactly
the contained products in insertion order: one numbered line per product
after the header (and the fixed message when empty); the embedded function
reads only `self.productos`, so listing does not mutate and re-querying
yields the same current contents. -/
theorem listar_productos_spec (inv : Inventario) :
    (inv.productos = [] →
      inv.listar_productos = ["No hay productos en el inventario.\n"]) ∧
    (inv.productos ≠ [] →
      inv.listar_productos.length = inv.productos.length + 2 ∧
      inv.listar_productos.get? 0 = some "\n--- Productos en el inventario ---" ∧
      ∀ i, ∀ h : i < inv.productos.length,
        inv.listar_productos.get? (i + 1) =
          some (toString (i + 1) ++ ". " ++ (inv.productos.get ⟨i, h⟩).renderStr)) := by
  constructor
  · intro he
    unfold Inventario.listar_productos
    rw [if_pos (by simp [he])]
  · intro hne
    unfold Inventario.listar_productos
    rw [if_neg (by simpa using hne)]
    refine ⟨by simp, rfl, fun i h => ?_⟩
    rw [List.get?_cons_succ, List.get?_append (by simpa using h), List.get?_map,
      List.get?_enum, List.get?_eq_get h]
    simp

/-- Witness: listing the inventory `["Pen"]` prints a header, then line
`"1. <render of Pen>"`; the line count is the product count plus two. -/
theorem listar_productos_spec_witness :
    (Inventario.mk [pPen]).listar_productos.length = [pPen].length + 2 ∧
    (Inventario.mk [pPen]).listar_productos.get? 1 =
      some (toString (0 + 1) ++ ". " ++ pPen.renderStr) := by
  have h := (listar_productos_spec ⟨[pPen]⟩).2 (by decide)
  exact ⟨h.1, h.2.2 0 (by decide)⟩

/-! ### Reachable states and the inventory invariant (C6) -/

/-- The validity facts `Producto.__init__` establishes: the stored name is
already stripped and non-empty, and price and quantity are non-negative. -/
def Producto.Valid (p : Producto) : Prop :=
  pyStrip p.nombre = p.nombre ∧ p.nombre ≠ "" ∧ 0 ≤ p.precio ∧ 0 ≤ p.cantidad

/-- A successfully constructed product is valid. -/
theorem Producto.init_ok_valid {name precio cantidad : PyVal} {p : Producto}
    (h : Producto.init name precio cantidad = .ok p) : p.Valid := by
  obtain ⟨⟨s, _, hnom⟩, hne, _, _, hp, _, _, hc⟩ := Producto.init_ok _ _ _ _ h
  exact ⟨by rw [hnom]; exact pyStrip_idem s, hne, hp, hc⟩

/-- A successful `actualizar_precio` preserves validity. -/
theorem Producto.actualizar_precio_valid {p p' : Producto} {v : PyVal}
    (hv : p.Valid) (h : p.actualizar_precio v = (p', Option.none)) : p'.Valid := by
  obtain ⟨_, hge, hp'⟩ := Producto.actualizar_precio_ok p p' v h
  subst hp'
  exact ⟨hv.1, hv.2.1, hge, hv.2.2.2⟩

/-- A successful `actualizar_cantidad` preserves validity. -/
theorem Producto.actualizar_cantidad_valid {p p' : Producto} {v : PyVal}
    (hv : p.Valid) (h : p.actualizar_cantidad v = (p', Option.none)) : p'.Valid := by
  obtain ⟨_, hge, hp'⟩ := Producto.actualizar_cantidad_ok p p' v h
  subst hp'
  exact ⟨hv.1, hv.2.1, hv.2.2.1, hge⟩

/-- Products obtainable in the running program: constructed by a successful
`__init__`, then possibly updated by successful mutator calls. -/
inductive ProductoReachable : Producto → Prop where
  | init (nombre precio cantidad : PyVal) (p : Producto)
      (h : Producto.init nombre precio cantidad = .ok p) : ProductoReachable p
  | setPrecio (p p' : Producto) (v : PyVal) (hp : ProductoReachable p)
      (h : p.actualizar_precio v = (p', Option.none)) : ProductoReachable p'
  | setCantidad (p p' : Producto) (v : PyVal) (hp : ProductoReachable p)
      (h : p.actualizar_cantidad v = (p', Option.none)) : ProductoReachable p'

/-- Every reachable product is valid. -/
theorem ProductoReachable.valid {p : Producto} (h : ProductoReachable p) :
    p.Valid := by
  induction h with
  | init _ _ _ _ h => exact Producto.init_ok_valid h
  | setPrecio _ _ _ _ h ih => exact Producto.actualizar_precio_valid ih h
  | setCantidad _ _ _ _ h ih => exact Producto.actualizar_cantidad_valid ih h

/-- Inventory states reachable from the empty inventory by successful
operations.  Only `agregar_producto` and in-place mutation of a contained
product (via a reference obtained from the inventory) change the state;
`buscar_producto`, `listar_productos` and `calcular_valor_inventario` are
embedded as read-only functions and induce no transition. -/
inductive Reachable : Inventario → Prop where
  | empty : Reachable Inventario.init
  | add (inv inv' : Inventario) (p : Producto) (hr : Reachable inv)
      (hp : ProductoReachable p)
      (h : inv.agregar_producto (.prod p) = (inv', Option.none)) : Reachable inv'
  | setPrecio (inv : Inventario) (i : Nat) (hi : i < inv.productos.length)
      (p' : Producto) (v : PyVal) (hr : Reachable inv)
      (h : (inv.productos.get ⟨i, hi⟩).actualizar_precio v = (p', Option.none)) :
      Reachable ⟨inv.productos.set i p'⟩
  | setCantidad (inv : Inventario) (i : Nat) (hi : i < inv.productos.length)
      (p' : Producto) (v : PyVal) (hr : Reachable inv)
      (h : (inv.productos.get ⟨i, hi⟩).actualizar_cantidad v = (p', Option.none)) :
      Reachable ⟨inv.productos.set i p'⟩

/-- Replacing one element by a product with the same lowered name preserves
pairwise distinctness of lowered names. -/
theorem pairwise_names_set (l : List Producto) (i : Nat) (hi : i < l.length)
    (p' : Producto)
    (hname : pyLower p'.nombre = pyLower ((l.get ⟨i, hi⟩).nombre))
    (hp : l.Pairwise (fun p q => pyLower p.nombre ≠ pyLower q.nombre)) :
    (l.set i p').Pairwise (fun p q => pyLower p.nombre ≠ pyLower q.nombre) := by
  rw [List.pairwise_iff_get] at hp ⊢
  intro a b hab
  have hla : (a : Nat) < l.length := by simpa using a.2
  have hlb : (b : Nat) < l.length := by simpa using b.2
  have hab' : (a : Nat) < (b : Nat) := hab
  have ga : (l.set i p').get a = if i = (a : Nat) then p' else l.get ⟨a, hla⟩ := by
    rw [List.get_eq_getElem, List.getElem_set]
    split <;> simp [List.get_eq_getElem]
  have gb : (l.set i p').get b = if i = (b : Nat) then p' else l.get ⟨b, hlb⟩ := by
    rw [List.get_eq_getElem, List.getElem_set]
    split <;> simp [List.get_eq_getElem]
  by_cases hia : i = (a : Nat) <;> by_cases hib : i = (b : Nat)
  · omega
  · rw [ga, gb, if_pos hia, if_neg hib, hname]
    have := hp ⟨i, by omega⟩ ⟨b, hlb⟩ (by simpa [Fin.lt_def] using by omega)
    simpa [hia] using this
  · rw [ga, gb, if_neg hia, if_pos hib, hname]
    have := hp ⟨a, hla⟩ ⟨i, by omega⟩ (by simpa [Fin.lt_def] using by omega)
    simpa [hib] using this
  · rw [ga, gb, if_neg hia, if_neg hib]
    exact hp ⟨a, hla⟩ ⟨b, hlb⟩ hab'

/-- In every reachable inventory, lowered names are pairwise distinct and all
contained products are valid. -/
theorem Reachable.valid_unique {inv : Inventario} (h : Reachable inv) :
    inv.productos.Pairwise (fun p q => pyLower p.nombre ≠ pyLower q.nombre) ∧
    ∀ p ∈ inv.productos, p.Valid := by
  induction h with
  | empty => simp [Inventario.init]
  | add inv inv' p hr hp hok ih =>
    obtain ⟨happ, hnames⟩ := Inventario.agregar_producto_ok inv inv' p hok
    rw [happ]
    constructor
    · rw [List.pairwise_append]
      refine ⟨ih.1, List.pairwise_singleton _ _, fun a ha b hb => ?_⟩
      rw [List.mem_singleton] at hb
      subst hb
      exact hnames a ha
    · intro q hq
      rw [List.mem_append] at hq
      rcases hq with hq | hq
      · exact ih.2 q hq
      · rw [List.mem_singleton] at hq
        subst hq
        exact hp.valid
  | setPrecio inv i hi p' v hr hmut ih =>
    obtain ⟨_, _, hp'⟩ := Producto.actualizar_precio_ok _ _ _ hmut
    constructor
    · exact pairwise_names_set _ _ hi _ (by rw [hp']) ih.1
    · intro q hq
      rcases List.mem_or_eq_of_mem_set hq with hq | hq
      · exact ih.2 q hq
      · subst hq
        exact Producto.actualizar_precio_valid
          (ih.2 _ (List.get_mem inv.productos i hi)) hmut
  | setCantidad inv i hi p' v hr hmut ih =>
    obtain ⟨_, _, hp'⟩ := Producto.actualizar_cantidad_ok _ _ _ hmut
    constructor
    · exact pairwise_names_set _ _ hi _ (by rw [hp']) ih.1
    · intro q hq
      rcases List.mem_or_eq_of_mem_set hq with hq | hq
      · exact ih.2 q hq
      · subst hq
        exact Producto.actualizar_cantidad_valid
          (ih.2 _ (List.get_mem inv.productos i hi)) hmut

/-- C6: in every inventory state reachable from the empty inventory by
successful operations, no two contained products share a lowered name, and
every contained product has a non-empty trimmed name, price ≥ 0 and
quantity ≥ 0. -/
theorem inventario_invariant (inv : Inventario) (h : Reachable inv) :
    inv.productos.Pairwise (fun p q => pyLower p.nombre ≠ pyLower q.nombre) ∧
    ∀ p ∈ inv.productos, pyStrip p.nombre ≠ "" ∧ 0 ≤ p.precio ∧ 0 ≤ p.cantidad := by
  obtain ⟨h1, h2⟩ := Reachable.valid_unique h
  refine ⟨h1, fun p hp => ?_⟩
  obtain ⟨hstrip, hne, hpr, hc⟩ := h2 p hp
  exact ⟨by rw [hstrip]; exact hne, hpr, hc⟩

/-- Witness: the invariant instantiated at the reachable one-step inventory
obtained by adding `Producto("Pen", 2.0, 100)` to the empty inventory. -/
theorem inventario_invariant_witness :
    (Inventario.mk [pPen]).productos.Pairwise
      (fun p q => pyLower p.nombre ≠ pyLower q.nombre) ∧
    ∀ p ∈ (Inventario.mk [pPen]).productos,
      pyStrip p.nombre ≠ "" ∧ 0 ≤ p.precio ∧ 0 ≤ p.cantidad :=
  inventario_invariant ⟨[pPen]⟩
    (Reachable.add Inventario.init ⟨[pPen]⟩ pPen Reachable.empty
      (ProductoReachable.init (.str "Pen") (.float 2) (.int 100) pPen (by rfl))
      (by rfl))

end SistemaInventario
